import Mathlib

/-!
A shallow embedding of `src/tools/bgpreader.c` (the bgpstream command-line
driver) and proofs about its observable behaviour.

The external stream engine (libbgpstream) is treated as a black box: every
engine call the driver makes is either recorded as an event in an output
trace, or answered by an `Engine` oracle structure whose fields model the
engine functions the driver consults.  All stdout/stderr writes are also
recorded as trace events.  Exit codes are `Int` (the tool exits 0 or -1).

The C sources of truth are cited next to each definition by line number.
-/

/-! ### Record data model (bgpstream_record_t, as observed by the formatters) -/

/-- `bgpstream_record_dump_type_t`: the dump types rendered by
`get_dump_type_str` (bgpreader.c lines 476-486). -/
inductive DumpType
  | update
  | rib
deriving DecidableEq, Repr

/-- `bgpstream_dump_position_t`: positions rendered by `get_dump_pos_str`
(bgpreader.c lines 488-500).  `end_` stands for `BGPSTREAM_DUMP_END`
(`end` is a Lean keyword). -/
inductive DumpPos
  | start
  | middle
  | end_
deriving DecidableEq, Repr

/-- `bgpstream_record_status_t`: statuses rendered by
`get_record_status_str` (bgpreader.c lines 502-518). -/
inductive RecordStatus
  | valid_record
  | filtered_source
  | empty_source
  | corrupted_source
  | corrupted_record
deriving DecidableEq, Repr

/-- The observable attributes of a `bgpstream_record_t` used by
`print_bs_record` (bgpreader.c lines 521-533): `attributes.record_time`,
`attributes.dump_project`, `attributes.dump_collector`,
`attributes.dump_type`, `status`, `attributes.dump_time`, `dump_pos`. -/
structure BSRecord where
  record_time : Int
  dump_project : String
  dump_collector : String
  dump_type : DumpType
  dump_time : Int
  dump_pos : DumpPos
  status : RecordStatus
deriving DecidableEq, Repr

instance : Inhabited BSRecord :=
  ⟨⟨0, "", "", .update, 0, .start, .valid_record⟩⟩

/-! ### printf "%ld" decimal rendering

`print_bs_record` renders the two time fields with `printf("%ld", ...)`.
We model the C library conversion: decimal digits, `-` sign for negatives. -/

/-- Decimal digit list of `n` (most significant first); empty for 0.
Structural recursion on a fuel argument so the kernel can evaluate it;
`fuel = n` always suffices since `n` has at most `n` digits. -/
def natDecAux (fuel n : Nat) : List Char :=
  match fuel with
  | 0 => []
  | f + 1 =>
    if n = 0 then [] else natDecAux f (n / 10) ++ [Char.ofNat (48 + n % 10)]

/-- Decimal rendering of a natural number, as printf %lu would produce. -/
def natDec (n : Nat) : String :=
  if n = 0 then "0" else ⟨natDecAux n n⟩

/-- Decimal rendering of a signed integer, as printf %ld produces. -/
def decimal : Int → String
  | .ofNat n => natDec n
  | .negSucc m => "-" ++ natDec (m + 1)

/-! ### The enum-to-string tables (bgpreader.c lines 476-518) -/

/-- `get_dump_type_str` (bgpreader.c lines 476-486). -/
def get_dump_type_str : DumpType → String
  | .update => "update"
  | .rib => "rib"

/-- `get_dump_pos_str` (bgpreader.c lines 488-500). -/
def get_dump_pos_str : DumpPos → String
  | .start => "start"
  | .middle => "middle"
  | .end_ => "end"

/-- `get_record_status_str` (bgpreader.c lines 502-518). -/
def get_record_status_str : RecordStatus → String
  | .valid_record => "valid_record"
  | .filtered_source => "filtered_source"
  | .empty_source => "empty_source"
  | .corrupted_source => "corrupted_source"
  | .corrupted_record => "corrupted_record"

/-- `print_bs_record` (bgpreader.c lines 521-533): the eight successive
`printf` calls concatenated into the one stdout line they produce. -/
def print_bs_record (r : BSRecord) : String :=
  decimal r.record_time ++ "|" ++
  r.dump_project ++ "|" ++
  r.dump_collector ++ "|" ++
  get_dump_type_str r.dump_type ++ "|" ++
  get_record_status_str r.status ++ "|" ++
  decimal r.dump_time ++ "|" ++
  get_dump_pos_str r.dump_pos ++ "|" ++
  "\n"

/-! ### C library string helpers used by main -/

/-- C `isspace` for the default locale, as consulted by `atoi`. -/
def isSpaceC (c : Char) : Bool :=
  c = ' ' ∨ c = '\t' ∨ c = '\n' ∨ c = '\x0b' ∨ c = '\x0c' ∨ c = '\r'

/-- Digit-accumulation loop of C `atoi`: consume leading decimal digits,
stop at the first non-digit. -/
def atoiDigits : List Char → Nat → Nat
  | [], acc => acc
  | c :: cs, acc =>
    if c.isDigit then atoiDigits cs (acc * 10 + (c.toNat - 48)) else acc

/-- C `atoi`: skip leading whitespace, optional sign, then decimal digits;
yields 0 when no digits are present.  (Overflow of the C `int` is undefined
behaviour and is not modelled; the driver feeds the result into `uint32_t`
or `int` fields.) -/
def atoi (s : String) : Int :=
  match s.data.dropWhile isSpaceC with
  | '-' :: rest => -(atoiDigits rest 0 : Int)
  | '+' :: rest => (atoiDigits rest 0 : Int)
  | cs => (atoiDigits cs 0 : Int)

/-- Conversion of a C `int` value to `uint32_t` (the assignment
`windows[i].start = atoi(...)` in bgpreader.c lines 247-248). -/
def toU32 (i : Int) : Nat :=
  (i % (2 ^ 32 : Int)).toNat

/-- The `strchr(s, c)` + split idiom of bgpreader.c lines 238/321: find the
first occurrence of `c`, return the part before it and the part after it
(`*endp = 0; endp++`).  `none` when `c` does not occur. -/
def strchrSplit (s : String) (c : Char) : Option (String × String) :=
  if c ∈ s.data then
    some (⟨s.data.takeWhile (fun d => d ≠ c)⟩,
          ⟨(s.data.dropWhile (fun d => d ≠ c)).tail⟩)
  else none

/-- `%-15s` padding used by `dump_if_options` and `data_if_usage`. -/
def padRight (n : Nat) (s : String) : String :=
  s ++ ⟨List.replicate (n - s.length) ' '⟩

-- quick sanity examples (concrete evaluation of the embedded helpers)
example : atoi "abc" = 0 := by decide
example : atoi "  42x" = 42 := by decide
example : atoi "-7" = -7 := by decide
example : strchrSplit "10,20,30" ',' = some ("10", "20,30") := by decide
example : strchrSplit "1020" ',' = none := by decide
example : decimal (1420070450 : Int) = "1420070450" := by decide
example : decimal (-5 : Int) = "-5" := by decide
example : print_bs_record
    ⟨1420070450, "routeviews", "rrc00", .rib, 1420070400, .middle, .valid_record⟩
  = "1420070450|routeviews|rrc00|rib|valid_record|1420070400|middle|\n" := by
  decide

/-! ### Time windows (struct window, bgpreader.c lines 44-47)

`end` is a Lean keyword, so the field is `end_`. Both fields are
`uint32_t`, modelled as `Nat` values below `2 ^ 32` via `toU32`. -/

structure Window where
  start : Nat
  end_ : Nat
deriving DecidableEq, Repr

/-! ### Observable events

Every stdout/stderr write and every engine call the driver performs is one
event.  `usage` stands for the whole `usage()` block (bgpreader.c lines
101-128, stderr) and `version` for the version banner (lines 297-300).
`missingArg` is the `ERROR: Missing option argument for -%c` line (line
291; the `%c` is the stale `optopt` value, which getopt did not set on
this path, so the char printed is unspecified and not modelled). -/

inductive FilterKind
  | project
  | collector
  | recordType
deriving DecidableEq, Repr

inductive Ev
  | err (s : String)
  | out (s : String)
  | usage
  | version
  | missingArg
  | setIfOption (opt : Nat) (value : String)
  | addFilter (kind : FilterKind) (value : String)
  | addIntervalFilter (wstart wend : Nat)
  | addRibPeriodFilter (p : Int)
  | setDataIf (id : Nat)
  | setBlocking
  | recordCreate
  | startEngine
  | mrtPrint (r : BSRecord)
  | recordDestroy
  | stopEngine
  | destroyEngine
deriving DecidableEq, Repr

/-- A terminated execution: the events emitted and the exit code. -/
structure ExitRes where
  events : List Ev
  code : Int
deriving DecidableEq, Repr

/-- One call to `bgpstream_get_next_record`: the return value, the record
the engine filled in, and (for `-e` mode) the serialization result of each
element the record iterator yields (`bgpstream_elem_snprintf` writes a
string, or returns NULL leaving arbitrary bytes in the buffer). -/
inductive ElemPrint
  | ok (s : String)
  | fail (buf : String)
deriving DecidableEq, Repr

structure Pull where
  ret : Int
  record : BSRecord
  elems : List ElemPrint
deriving DecidableEq, Repr

/-- The black-box stream engine (libbgpstream) as consulted by the driver:
introspection answers, whether `bgpstream_record_create` succeeds, the
return value of `bgpstream_start`, and the successive results of
`bgpstream_get_next_record`.  When `pulls` is exhausted further calls are
taken to return 0 (stream exhausted); a terminating stream always has a
final pull with `ret ≤ 0`. -/
structure Engine where
  createOk : Bool
  defaultIf : Nat
  ifIdByName : String → Nat
  ifInfoName : Nat → String
  ifOptions : Nat → List (String × String)
  optionByName : Nat → String → Option Nat
  recordCreateOk : Bool
  startRet : Int
  pulls : List Pull

/-! ### Command-line limits (bgpreader.c lines 38-42) -/

def PROJECT_CMD_CNT : Nat := 10
def TYPE_CMD_CNT : Nat := 10
def COLLECTOR_CMD_CNT : Nat := 100
def WINDOW_CMD_CNT : Nat := 1024
def OPTION_CMD_CNT : Nat := 1024

/-- The configuration accumulated by the getopt loop (the local variables
of `main`, bgpreader.c lines 144-168, plus `datasource_id`). -/
structure Config where
  projects : List String
  collectors : List String
  types : List String
  windows : List Window
  interface_options : List String
  rib_period : Int
  blocking : Bool
  record_output_on : Bool
  record_bgpdump_output_on : Bool
  elem_output_on : Bool
  datasource_id : Nat
deriving DecidableEq, Repr

/-- Initial state of the option variables (bgpreader.c lines 144-179):
everything empty / 0 / off, `datasource_id` set to the engine default as
reported by `bgpstream_get_data_interface_id`. -/
def initConfig (E : Engine) : Config :=
  ⟨[], [], [], [], [], 0, false, false, false, false, E.defaultIf⟩

/-! ### getopt

The driver calls POSIX `getopt(argc, argv, "d:o:p:c:t:w:P:brmeh?")` with
`opterr = 0` (bgpreader.c lines 142, 182-183).  getopt is libc code, not
part of this repository; it is modelled here by its POSIX contract:
options may be clustered (`-brm`), an option argument may be attached
(`-wX`) or taken from the next argv slot, `--` ends option scanning, a
non-option argument stops scanning, an unknown option char or a missing
argument at the end of argv makes getopt return `?`.  `argv` below is the
C `argv[1..]` (the slots after the program name). -/

structure GetoptSt where
  args : List String
  cluster : List Char
deriving DecidableEq, Repr

inductive GetoptRet
  | done
  | code (c : Char) (optarg : Option String) (advTwo : Bool)
deriving DecidableEq, Repr

/-- Option table encoding the optstring `d:o:p:c:t:w:P:brmeh?`:
`some true` = takes an argument, `some false` = plain flag, `none` =
not a recognized option char. -/
def optTakesArg (c : Char) : Option Bool :=
  if c ∈ (['d', 'o', 'p', 'c', 't', 'w', 'P'] : List Char) then some true
  else if c ∈ (['b', 'r', 'm', 'e', 'h', '?'] : List Char) then some false
  else none

/-- Process one option char `c`; `rest` is the remainder of its cluster,
`args` the argv slots after the current token.  `advTwo` records that the
argument was taken from the following argv slot, i.e. that getopt
advanced `optind` by two relative to `prevoptind`. -/
def getoptChar (args : List String) (c : Char) (rest : List Char) :
    GetoptRet × GetoptSt :=
  match optTakesArg c with
  | none => (.code '?' none false, ⟨args, rest⟩)
  | some false => (.code c none false, ⟨args, rest⟩)
  | some true =>
    match rest with
    | _ :: _ => (.code c (some ⟨rest⟩) false, ⟨args, []⟩)
    | [] =>
      match args with
      | [] => (.code '?' none false, ⟨[], []⟩)
      | a :: args2 => (.code c (some a) true, ⟨args2, []⟩)

/-- One getopt call. -/
def getoptNext : GetoptSt → GetoptRet × GetoptSt
  | ⟨args, c :: rest⟩ => getoptChar args c rest
  | ⟨[], []⟩ => (.done, ⟨[], []⟩)
  | ⟨tok :: args, []⟩ =>
    if tok = "--" then (.done, ⟨args, []⟩)
    else
      match tok.data with
      | '-' :: c :: rest => getoptChar args c rest
      | _ => (.done, ⟨tok :: args, []⟩)

/-- Termination measure for the getopt loop. -/
def argvChars (l : List String) : Nat :=
  l.foldr (fun a n => a.length + 1 + n) 0

def stMeasure (st : GetoptSt) : Nat :=
  2 * argvChars st.args + st.cluster.length


theorem getoptChar_measure (args : List String) (c : Char) (rest : List Char)
    (r : GetoptRet) (st2 : GetoptSt)
    (h : getoptChar args c rest = (r, st2)) :
    2 * argvChars st2.args + st2.cluster.length
      ≤ 2 * argvChars args + rest.length := by
  unfold getoptChar at h
  split at h
  · cases h; simp
  · cases h; simp
  · split at h
    · cases h; simp
    · split at h
      · cases h; simp [argvChars]
      · cases h; simp only [argvChars, List.foldr]; omega

theorem getoptNext_measure (st st2 : GetoptSt) (c : Char) (a : Option String)
    (adv : Bool) (h : getoptNext st = (.code c a adv, st2)) :
    stMeasure st2 < stMeasure st := by
  unfold getoptNext at h
  split at h
  next args ch rest =>
    have hb := getoptChar_measure args ch rest _ _ h
    simp only [stMeasure, List.length_cons] at *
    omega
  next => exact GetoptRet.noConfusion (congrArg Prod.fst h)
  next tok args =>
    split at h
    · exact GetoptRet.noConfusion (congrArg Prod.fst h)
    · split at h
      next c1 rest heq =>
        have hb := getoptChar_measure args c1 rest _ _ h
        have hlen : tok.length = rest.length + 2 := by
          have h2 : tok.data.length = rest.length + 2 := by
            rw [heq]; simp only [List.length_cons]
          exact h2
        simp only [stMeasure, argvChars, List.foldr] at *
        omega
      next => exact GetoptRet.noConfusion (congrArg Prod.fst h)

/-! ### The option switch (bgpreader.c lines 189-307) -/

/-- Result of `-w` argument handling (bgpreader.c lines 237-249): split the
argument at the first comma (missing comma is a fatal usage error naming
the token, lines 238-244), then convert both sides with `atoi` and store
them into the `uint32_t` window fields (lines 247-248).  `atoi` performs
no validation: a non-numeric side silently converts to 0. -/
inductive WRes
  | exit (e : ExitRes)
  | ok (w : Window)
deriving DecidableEq, Repr

def parse_window (optarg : String) : WRes :=
  match strchrSplit optarg ',' with
  | none =>
    .exit ⟨[.err ("ERROR: Malformed time window (" ++ optarg ++ ")"),
            .err "ERROR: Expecting start,end", .usage], -1⟩
  | some (a, b) => .ok ⟨toU32 (atoi a), toU32 (atoi b)⟩

/-- Result of one iteration of the getopt loop body. -/
inductive StepRes
  | exit (e : ExitRes)
  | cont (cfg : Config)
deriving DecidableEq, Repr

/-- The `switch (opt)` of bgpreader.c lines 189-307.  `optarg` is `none`
exactly when getopt supplied no argument; the cases that require an
argument only ever see `some` (getopt would have returned `?` or the
missing-argument rewrite would have produced `:`), so `optarg.getD ""` is
never consulted on those paths.  The C `case v` label is dead code: getopt
never returns `v` since it is not in the optstring, so it is not modelled;
`case h` does not exist in the C switch, so `-h` falls into `default`. -/
def handleOpt (E : Engine) (c : Char) (optarg : Option String) (cfg : Config) :
    StepRes :=
  match c with
  | 'p' =>
    if cfg.projects.length = PROJECT_CMD_CNT then
      .exit ⟨[.err ("ERROR: A maximum of " ++ natDec PROJECT_CMD_CNT ++
                    " projects can be specified on the command line"),
              .usage], -1⟩
    else .cont { cfg with projects := cfg.projects ++ [optarg.getD ""] }
  | 'c' =>
    if cfg.collectors.length = COLLECTOR_CMD_CNT then
      .exit ⟨[.err ("ERROR: A maximum of " ++ natDec COLLECTOR_CMD_CNT ++
                    " collectors can be specified on the command line"),
              .usage], -1⟩
    else .cont { cfg with collectors := cfg.collectors ++ [optarg.getD ""] }
  | 't' =>
    if cfg.types.length = TYPE_CMD_CNT then
      .exit ⟨[.err ("ERROR: A maximum of " ++ natDec TYPE_CMD_CNT ++
                    " types can be specified on the command line"),
              .usage], -1⟩
    else .cont { cfg with types := cfg.types ++ [optarg.getD ""] }
  | 'w' =>
    if cfg.windows.length = WINDOW_CMD_CNT then
      .exit ⟨[.err ("ERROR: A maximum of " ++ natDec WINDOW_CMD_CNT ++
                    " windows can be specified on the command line"),
              .usage], -1⟩
    else
      match parse_window (optarg.getD "") with
      | .exit e => .exit e
      | .ok w => .cont { cfg with windows := cfg.windows ++ [w] }
  | 'P' => .cont { cfg with rib_period := atoi (optarg.getD "") }
  | 'd' =>
    if E.ifIdByName (optarg.getD "") = 0 then
      .exit ⟨[.err ("ERROR: Invalid data interface name \x27" ++
                    optarg.getD "" ++ "\x27"), .usage], -1⟩
    else .cont { cfg with datasource_id := E.ifIdByName (optarg.getD "") }
  | 'o' =>
    if cfg.interface_options.length = OPTION_CMD_CNT then
      .exit ⟨[.err ("ERROR: A maximum of " ++ natDec OPTION_CMD_CNT ++
                    " interface options can be specified"), .usage], -1⟩
    else
      .cont { cfg with
                interface_options := cfg.interface_options ++ [optarg.getD ""] }
  | 'b' => .cont { cfg with blocking := true }
  | 'r' => .cont { cfg with record_output_on := true }
  | 'm' => .cont { cfg with record_bgpdump_output_on := true }
  | 'e' => .cont { cfg with elem_output_on := true }
  | ':' => .exit ⟨[.missingArg, .usage], -1⟩
  | '?' => .exit ⟨[.version, .usage], 0⟩
  | _ => .exit ⟨[.usage], -1⟩

/-- The `(optarg == NULL || *optarg == '-')` test of bgpreader.c line 185. -/
def optargDashOrNull : Option String → Bool
  | none => true
  | some s =>
    match s.data with
    | '-' :: _ => true
    | _ => false

/-- Outcome of the whole getopt loop. -/
inductive ParseRes
  | exit (e : ExitRes)
  | ok (cfg : Config)
deriving DecidableEq, Repr

/-- The getopt loop of bgpreader.c lines 182-308: call getopt, apply the
missing-argument rewrite of lines 185-188 (`optind == prevoptind + 2`
with a NULL or flag-shaped `optarg` turns the result into `:`), then run
the switch; repeat until getopt returns -1.  The loop is written with a
structural fuel argument so the kernel can evaluate it; `stMeasure st`
strictly decreases at every iteration (`getoptNext_measure`), so
`stMeasure st + 1` fuel always suffices and `parseLoopF` never hits 0. -/
def parseLoopF (E : Engine) : Nat → GetoptSt → Config → ParseRes
  | 0, _, cfg => .ok cfg
  | f + 1, st, cfg =>
    match getoptNext st with
    | (.done, _) => .ok cfg
    | (.code c optarg advTwo, st2) =>
      match handleOpt E (if advTwo && optargDashOrNull optarg then ':' else c)
              optarg cfg with
      | .exit e => .exit e
      | .cont cfg2 => parseLoopF E f st2 cfg2

def parseLoop (E : Engine) (st : GetoptSt) (cfg : Config) : ParseRes :=
  parseLoopF E (stMeasure st + 1) st cfg

/-- Fuel does not matter as long as it exceeds the measure. -/
theorem parseLoopF_irrel (E : Engine) (f1 : Nat) :
    ∀ f2 st cfg, stMeasure st < f1 → stMeasure st < f2 →
      parseLoopF E f1 st cfg = parseLoopF E f2 st cfg := by
  induction f1 using Nat.strong_induction_on with
  | _ f1 ih =>
    intro f2 st cfg h1 h2
    match f1, h1 with
    | g1 + 1, h1 =>
      match f2, h2 with
      | g2 + 1, h2 =>
        simp only [parseLoopF]
        rcases hg : getoptNext st with ⟨ret, st2⟩
        cases ret with
        | done => rfl
        | code c optarg advTwo =>
          dsimp only
          cases handleOpt E
              (if advTwo && optargDashOrNull optarg then ':' else c)
              optarg cfg with
          | exit e => rfl
          | cont cfg2 =>
            have hm := getoptNext_measure st st2 c optarg advTwo hg
            exact ih g1 (by omega) g2 st2 cfg2 (by omega) (by omega)

/-- One-step unfolding of the getopt loop, fuel-free. -/
theorem parseLoop_step (E : Engine) (st : GetoptSt) (cfg : Config) :
    parseLoop E st cfg =
      match getoptNext st with
      | (.done, _) => .ok cfg
      | (.code c optarg advTwo, st2) =>
        match handleOpt E (if advTwo && optargDashOrNull optarg then ':' else c)
                optarg cfg with
        | .exit e => .exit e
        | .cont cfg2 => parseLoop E st2 cfg2 := by
  show parseLoopF E (stMeasure st + 1) st cfg = _
  simp only [parseLoopF]
  rcases hg : getoptNext st with ⟨ret, st2⟩
  cases ret with
  | done => rfl
  | code c optarg advTwo =>
    dsimp only
    cases handleOpt E (if advTwo && optargDashOrNull optarg then ':' else c)
        optarg cfg with
    | exit e => rfl
    | cont cfg2 =>
      have hm := getoptNext_measure st st2 c optarg advTwo hg
      exact parseLoopF_irrel E (stMeasure st) (stMeasure st2 + 1) st2 cfg2
        (by omega) (by omega)

/-! ### The interface-option binder (bgpreader.c lines 76-99, 310-348) -/

/-- `dump_if_options` (bgpreader.c lines 76-99): header line, then either
`[NONE]` or one line per option (`%-15s` padded name plus description),
then a blank line, all on stderr. -/
def dump_if_options (E : Engine) (id : Nat) : List Ev :=
  [.err ("Data interface options for \x27" ++ E.ifInfoName id ++ "\x27:")] ++
  (if E.ifOptions id = [] then [.err "   [NONE]"]
   else (E.ifOptions id).map fun o => .err ("   " ++ padRight 15 o.1 ++ o.2)) ++
  [.err ""]

/-- The second-pass binder loop over `interface_options` (bgpreader.c
lines 310-347), run with the final `datasource_id`.  Returns the events
it emits and `some code` when it makes the process exit (the `?` sentinel
exits 0, errors exit -1); `none` means the loop ran to completion.  The C
tests only the FIRST character against `?` (line 312). -/
def bindOptions (E : Engine) (id : Nat) : List String → List Ev × Option Int
  | [] => ([], none)
  | o :: rest =>
    if o.data.head? = some '?' then
      (dump_if_options E id ++ [.usage], some 0)
    else
      match strchrSplit o ',' with
      | none =>
        ([.err ("ERROR: Malformed data interface option (" ++ o ++ ")"),
          .err "ERROR: Expecting <option-name>,<option-value>", .usage],
         some (-1))
      | some (oname, oval) =>
        match E.optionByName id oname with
        | none =>
          ([.err ("ERROR: Invalid option \x27" ++ oname ++
                  "\x27 for data interface \x27" ++ E.ifInfoName id ++ "\x27"),
            .usage], some (-1))
        | some opt =>
          (.setIfOption opt oval :: (bindOptions E id rest).1,
           (bindOptions E id rest).2)

/-! ### The streaming driver (bgpreader.c lines 350-472) -/

/-- `print_elem` (bgpreader.c lines 536-549): on success print the buffer
plus a newline to stdout and return 0; on `bgpstream_elem_snprintf`
returning NULL, print the diagnostic and the buffer content forcibly
NUL-terminated at byte 65535 to stderr and return -1. -/
def print_elem : ElemPrint → List Ev × Int
  | .ok s => ([.out (s ++ "\n")], 0)
  | .fail buf =>
    ([.err "Failed to construct elem string",
      .err ("Elem string: " ++ (⟨buf.data.take 65535⟩ : String))], -1)

/-- The element loop of bgpreader.c lines 443-450: iterate the elements of
the current record; a nonzero `print_elem` return aborts via `goto err`
(the Bool is true when that happened; later elements are not visited). -/
def elemLoop : List ElemPrint → List Ev × Bool
  | [] => ([], false)
  | el :: els =>
    if (print_elem el).2 = 0 then
      ((print_elem el).1 ++ (elemLoop els).1, (elemLoop els).2)
    else ((print_elem el).1, true)

/-- The per-record dispatch in the loop body (bgpreader.c lines 431-452):
header if the pull return was nonzero and `-r` is on; then, if the return
was nonzero and the record status is valid, MRT output if `-m` is on and
the element loop if `-e` is on.  The Bool is true when an element
serialization failure triggered `goto err`. -/
def dispatchRecord (recOn mrtOn elemOn : Bool) (p : Pull) : List Ev × Bool :=
  if p.ret ≠ 0 ∧ p.record.status = .valid_record then
    if elemOn = true then
      ((if p.ret ≠ 0 ∧ recOn = true
        then [Ev.out (print_bs_record p.record)] else []) ++
       (if mrtOn = true then [Ev.mrtPrint p.record] else []) ++
       (elemLoop p.elems).1,
       (elemLoop p.elems).2)
    else
      ((if p.ret ≠ 0 ∧ recOn = true
        then [Ev.out (print_bs_record p.record)] else []) ++
       (if mrtOn = true then [Ev.mrtPrint p.record] else []), false)
  else
    ((if p.ret ≠ 0 ∧ recOn = true
      then [Ev.out (print_bs_record p.record)] else []), false)

/-- The do-while pull loop (bgpreader.c lines 428-454), driven by the
successive `bgpstream_get_next_record` results: dispatch each pull, stop
with Bool true on `goto err`, continue only while the return is > 0.
An exhausted oracle list behaves as a return of 0 with no output
(the dispatch of a 0 return emits nothing), ending the loop cleanly. -/
def pullLoop (recOn mrtOn elemOn : Bool) : List Pull → List Ev × Bool
  | [] => ([], false)
  | p :: ps =>
    if (dispatchRecord recOn mrtOn elemOn p).2 then
      ((dispatchRecord recOn mrtOn elemOn p).1, true)
    else if p.ret > 0 then
      ((dispatchRecord recOn mrtOn elemOn p).1 ++
         (pullLoop recOn mrtOn elemOn ps).1,
       (pullLoop recOn mrtOn elemOn ps).2)
    else ((dispatchRecord recOn mrtOn elemOn p).1, false)

/-- Record creation, stream start, the pull loop and teardown
(bgpreader.c lines 410-472).  Note the start-failure path (lines 420-423)
returns -1 directly: it destroys neither the record nor the engine.
The record-creation failure path (lines 412-417) destroys the engine only.
The `goto err` path and the normal path (lines 456-471) run the full
teardown: destroy record, stop engine, destroy engine. -/
def streamPhase (E : Engine) (recOn mrtOn elemOn : Bool) : List Ev × Int :=
  if E.recordCreateOk = false then
    ([.err "ERROR: Could not create BGPStream record", .destroyEngine], -1)
  else if E.startRet < 0 then
    ([.recordCreate, .err "ERROR: Could not init BGPStream"], -1)
  else
    ([.recordCreate, .startEngine] ++ (pullLoop recOn mrtOn elemOn E.pulls).1 ++
     [.recordDestroy, .stopEngine, .destroyEngine],
     if (pullLoop recOn mrtOn elemOn E.pulls).2 then -1 else 0)

/-- The filter-programming calls (bgpreader.c lines 369-408), in source
order: projects, collectors, types, windows, rib period (iff > 0), data
interface selection, blocking (iff set). -/
def applyFilters (cfg : Config) : List Ev :=
  cfg.projects.map (Ev.addFilter .project) ++
  cfg.collectors.map (Ev.addFilter .collector) ++
  cfg.types.map (Ev.addFilter .recordType) ++
  cfg.windows.map (fun w => Ev.addIntervalFilter w.start w.end_) ++
  (if cfg.rib_period > 0 then [Ev.addRibPeriodFilter cfg.rib_period] else []) ++
  [Ev.setDataIf cfg.datasource_id] ++
  (if cfg.blocking = true then [Ev.setBlocking] else [])

/-- The default output mode (bgpreader.c lines 358-362): if no `-r`, `-m`
or `-e` was given, record output is switched on. -/
def defaultModes (cfg : Config) : Config :=
  if cfg.record_output_on = false ∧ cfg.elem_output_on = false ∧
     cfg.record_bgpdump_output_on = false then
    { cfg with record_output_on := true }
  else cfg

/-- Everything after the getopt loop (bgpreader.c lines 310-472): the
binder pass (using the final `datasource_id`), the missing `-w` check
(line 350), the output-mode default, the filter calls, and the streaming
phase. -/
def afterParse (E : Engine) (cfg : Config) : List Ev × Int :=
  match bindOptions E cfg.datasource_id cfg.interface_options with
  | (evs, some code) => (evs, code)
  | (evs, none) =>
    if cfg.windows = [] then
      (evs ++ [.err "ERROR: At least one time window must be specified using -w",
               .usage], -1)
    else
      let cfg2 := defaultModes cfg
      (evs ++ applyFilters cfg2 ++
        (streamPhase E cfg2.record_output_on cfg2.record_bgpdump_output_on
          cfg2.elem_output_on).1,
       (streamPhase E cfg2.record_output_on cfg2.record_bgpdump_output_on
          cfg2.elem_output_on).2)

/-- `main` (bgpreader.c lines 136-472) as a function from the engine
oracle and `argv[1..]` to the event trace and exit code.  Engine-creation
failure (lines 173-177) exits -1 before any parsing. -/
def mainRun (E : Engine) (argv : List String) : List Ev × Int :=
  if E.createOk = false then
    ([.err "ERROR: Could not create BGPStream instance"], -1)
  else
    match parseLoop E ⟨argv, []⟩ (initConfig E) with
    | .exit e => (e.events, e.code)
    | .ok cfg => afterParse E cfg

/-! ### A concrete engine oracle for witnesses

A small engine with two data interfaces (`broker`, the default, id 1, and
`singlefile`, id 2, advertising two options) used to evaluate the driver
at concrete inputs. -/

def Edemo : Engine where
  createOk := true
  defaultIf := 1
  ifIdByName := fun s =>
    if s = "broker" then 1 else if s = "singlefile" then 2 else 0
  ifInfoName := fun i => if i = 1 then "broker"
    else if i = 2 then "singlefile" else ""
  ifOptions := fun i =>
    if i = 2 then
      [("rib-file", "rib mrt file to read"),
       ("upd-file", "updates mrt file to read")]
    else []
  optionByName := fun i n =>
    if i = 2 ∧ n = "rib-file" then some 11
    else if i = 2 ∧ n = "upd-file" then some 12
    else none
  recordCreateOk := true
  startRet := 0
  pulls := []

-- sanity: scenario S2 of the spec (no arguments)
example : mainRun Edemo [] =
    ([.err "ERROR: At least one time window must be specified using -w",
      .usage], -1) := by decide

-- sanity: a single window, empty stream: filters then clean teardown
example : mainRun Edemo ["-w", "1420070400,1420070500"] =
    ([.addIntervalFilter 1420070400 1420070500, .setDataIf 1,
      .recordCreate, .startEngine,
      .recordDestroy, .stopEngine, .destroyEngine], 0) := by decide

-- sanity: missing argument detection ("two-advance with flag-shaped follower")
example : mainRun Edemo ["-w", "-p"] = ([.missingArg, .usage], -1) := by decide

/-! ### Separator counting for the record-header line -/

/-- Number of `|` characters in a string. -/
def pipeCount (s : String) : Nat := s.data.count '|'

theorem char_digit_ne_pipe (d : Nat) (hd : d < 10) :
    Char.ofNat (48 + d) ≠ '|' := by
  interval_cases d <;> decide

theorem pipe_not_mem_natDecAux (fuel : Nat) :
    ∀ n, '|' ∉ natDecAux fuel n := by
  induction fuel with
  | zero => intro n; simp [natDecAux]
  | succ f ih =>
    intro n
    simp only [natDecAux]
    split
    · simp
    · intro hmem
      rcases List.mem_append.mp hmem with h | h
      · exact ih _ h
      · have hd : n % 10 < 10 := Nat.mod_lt _ (by omega)
        have := char_digit_ne_pipe (n % 10) hd
        simp at h
        exact this h.symm

theorem pipe_not_mem_natDec (n : Nat) : '|' ∉ (natDec n).data := by
  unfold natDec
  split
  · decide
  · exact pipe_not_mem_natDecAux n n

theorem pipe_not_mem_decimal (i : Int) : '|' ∉ (decimal i).data := by
  cases i with
  | ofNat n => exact pipe_not_mem_natDec n
  | negSucc m =>
    simp only [decimal, String.data_append]
    intro h
    rcases List.mem_append.mp h with h | h
    · simp at h
    · exact pipe_not_mem_natDec (m + 1) h

theorem pipe_not_mem_dump_type (d : DumpType) :
    '|' ∉ (get_dump_type_str d).data := by
  cases d <;> decide

theorem pipe_not_mem_dump_pos (p : DumpPos) :
    '|' ∉ (get_dump_pos_str p).data := by
  cases p <;> decide

theorem pipe_not_mem_status (s : RecordStatus) :
    '|' ∉ (get_record_status_str s).data := by
  cases s <;> decide

/-- C9: for every record printed in record mode, the header line is the
seven fields record_time, dump_project, dump_collector, dump_type,
status, dump_time, dump_pos in that order, each followed by a bar, with
the trailing bar immediately before the terminating newline; when the
engine-supplied string fields contain no bar themselves the line contains
exactly seven bar separators. -/
theorem c9_record_header_line (r : BSRecord)
    (hp : '|' ∉ r.dump_project.data) (hc : '|' ∉ r.dump_collector.data) :
    print_bs_record r =
      decimal r.record_time ++ "|" ++ r.dump_project ++ "|" ++
      r.dump_collector ++ "|" ++ get_dump_type_str r.dump_type ++ "|" ++
      get_record_status_str r.status ++ "|" ++ decimal r.dump_time ++ "|" ++
      get_dump_pos_str r.dump_pos ++ "|" ++ "\n" ∧
    pipeCount (print_bs_record r) = 7 ∧
    (∃ t, (print_bs_record r).data = t ++ ['|', '\n']) := by
  refine ⟨rfl, ?_, ?_⟩
  · unfold pipeCount print_bs_record
    simp only [String.data_append, List.count_append]
    rw [List.count_eq_zero.mpr (pipe_not_mem_decimal r.record_time),
        List.count_eq_zero.mpr hp, List.count_eq_zero.mpr hc,
        List.count_eq_zero.mpr (pipe_not_mem_dump_type r.dump_type),
        List.count_eq_zero.mpr (pipe_not_mem_status r.status),
        List.count_eq_zero.mpr (pipe_not_mem_decimal r.dump_time),
        List.count_eq_zero.mpr (pipe_not_mem_dump_pos r.dump_pos)]
    decide
  · refine ⟨(decimal r.record_time).data ++ ['|'] ++ r.dump_project.data ++
      ['|'] ++ r.dump_collector.data ++ ['|'] ++
      (get_dump_type_str r.dump_type).data ++ ['|'] ++
      (get_record_status_str r.status).data ++ ['|'] ++
      (decimal r.dump_time).data ++ ['|'] ++
      (get_dump_pos_str r.dump_pos).data, ?_⟩
    simp [print_bs_record, String.data_append]

/-- Witness for C9 at the S1 record of the spec. -/
theorem c9_record_header_line_witness :
    print_bs_record
      ⟨1420070450, "routeviews", "rrc00", .rib, 1420070400, .middle,
       .valid_record⟩ =
      decimal 1420070450 ++ "|" ++ "routeviews" ++ "|" ++
      "rrc00" ++ "|" ++ get_dump_type_str .rib ++ "|" ++
      get_record_status_str .valid_record ++ "|" ++ decimal 1420070400 ++
      "|" ++ get_dump_pos_str .middle ++ "|" ++ "\n" ∧
    pipeCount (print_bs_record
      ⟨1420070450, "routeviews", "rrc00", .rib, 1420070400, .middle,
       .valid_record⟩) = 7 ∧
    (∃ t, (print_bs_record
      ⟨1420070450, "routeviews", "rrc00", .rib, 1420070400, .middle,
       .valid_record⟩).data = t ++ ['|', '\n']) :=
  c9_record_header_line
    ⟨1420070450, "routeviews", "rrc00", .rib, 1420070400, .middle,
     .valid_record⟩ (by decide) (by decide)

/-! ### Helper computation lemmas for the getopt loop -/

theorem string_mk_dash_ne (c : Char) (s : List Char)
    (h : ¬(c = '-' ∧ s = [])) : (⟨'-' :: c :: s⟩ : String) ≠ "--" := by
  intro he
  have hlit : ("--" : String) = ⟨['-', '-']⟩ := rfl
  rw [hlit] at he
  injection he with hd
  simp at hd
  exact h ⟨hd.1, hd.2⟩

/-- A token `-c...` that is not `--` makes getopt process the char `c`
with the remaining chars as its cluster. -/
theorem getoptNext_cons (args : List String) (c : Char) (s : List Char)
    (h : ¬(c = '-' ∧ s = [])) :
    getoptNext ⟨(⟨'-' :: c :: s⟩ : String) :: args, []⟩ =
      getoptChar args c s := by
  unfold getoptNext
  dsimp only
  rw [if_neg (string_mk_dash_ne c s h)]
  rfl

/-! ### C1 (code bug): the start-failure path skips teardown -/

/-- An engine whose `bgpstream_start` fails. -/
def EstartFail : Engine := { Edemo with startRet := -1 }

/-- C1: the claim says teardown (destroy record, stop engine, destroy
engine) still runs when `bgpstream_start` returns a negative value.  The
code (bgpreader.c lines 420-423) prints the diagnostic and returns -1
WITHOUT destroying the record, stopping the engine or destroying the
engine: on a concrete failing run none of the three teardown events
occurs in the trace. -/
theorem c1_start_failure_skips_teardown :
    mainRun EstartFail ["-w", "1,2"] =
      ([.addIntervalFilter 1 2, .setDataIf 1, .recordCreate,
        .err "ERROR: Could not init BGPStream"], -1) ∧
    Ev.recordDestroy ∉ (mainRun EstartFail ["-w", "1,2"]).1 ∧
    Ev.stopEngine ∉ (mainRun EstartFail ["-w", "1,2"]).1 ∧
    Ev.destroyEngine ∉ (mainRun EstartFail ["-w", "1,2"]).1 := by decide

/-! ### C2 (corrected): unknown flags exit 0, not -1 -/

/-- C2 counterexample: the claim says an unknown flag exits with code -1.
On `-z` the code reaches `case ?` (bgpreader.c lines 295-303), which
prints the version banner and usage and calls `exit(0)`. -/
theorem c2_counterexample :
    mainRun Edemo ["-z"] = ([.version, .usage], 0) ∧
    (mainRun Edemo ["-z"]).2 ≠ -1 := by decide

/-- C2 amended: when the parser reaches a flag char that is not in the
recognized option set (and the token is not the `--` terminator), it
prints the version banner and the usage text and exits with code 0. -/
theorem c2_unknown_flag_exits_zero (E : Engine) (cfg : Config) (c : Char)
    (s : List Char) (args : List String)
    (hc : optTakesArg c = none) (hne : ¬(c = '-' ∧ s = [])) :
    parseLoop E ⟨(⟨'-' :: c :: s⟩ : String) :: args, []⟩ cfg =
      .exit ⟨[.version, .usage], 0⟩ := by
  rw [parseLoop_step, getoptNext_cons args c s hne]
  unfold getoptChar
  rw [hc]
  rfl

/-- Witness for the amended C2 at the concrete unknown flag `-z`. -/
theorem c2_unknown_flag_exits_zero_witness :
    parseLoop Edemo ⟨(⟨'-' :: 'z' :: []⟩ : String) :: [], []⟩
        (initConfig Edemo) = .exit ⟨[.version, .usage], 0⟩ :=
  c2_unknown_flag_exits_zero Edemo (initConfig Edemo) 'z' [] []
    (by decide) (by decide)

/-! ### C3 (corrected): `-?` exits 0 with version + usage, `-h` does not -/

/-- C3 counterexample: the claim says `-h` prints the version banner and
usage and exits 0.  `h` is in the optstring but the switch has no
`case h`, so `-h` falls into `default` (bgpreader.c lines 304-306):
usage only, exit -1, no version banner. -/
theorem c3_counterexample :
    mainRun Edemo ["-h"] = ([.usage], -1) ∧
    (mainRun Edemo ["-h"]).2 ≠ 0 ∧
    Ev.version ∉ (mainRun Edemo ["-h"]).1 := by decide

/-- C3 amended: `-?` prints the version banner and the usage text and
exits 0 (bgpreader.c lines 295-303); `-h` prints only the usage text and
exits -1 (the switch default, lines 304-306). -/
theorem c3_help_flags (E : Engine) (cfg : Config) (s : List Char)
    (args : List String) :
    parseLoop E ⟨(⟨'-' :: '?' :: s⟩ : String) :: args, []⟩ cfg =
      .exit ⟨[.version, .usage], 0⟩ ∧
    parseLoop E ⟨(⟨'-' :: 'h' :: s⟩ : String) :: args, []⟩ cfg =
      .exit ⟨[.usage], -1⟩ := by
  constructor
  · rw [parseLoop_step, getoptNext_cons args '?' s (by simp)]
    rfl
  · rw [parseLoop_step, getoptNext_cons args 'h' s (by simp)]
    rfl

/-! ### C4 (corrected): `-w` splitting and atoi conversion -/

theorem takeWhile_ne_append (c : Char) (l r : List Char) (hl : c ∉ l) :
    (l ++ c :: r).takeWhile (fun d => d ≠ c) = l := by
  induction l with
  | nil => simp
  | cons x xs ih =>
    have hx : x ≠ c := fun he => hl (by simp [he])
    have hxs : c ∉ xs := fun hm => hl (List.mem_cons_of_mem _ hm)
    simp only [List.cons_append, List.takeWhile_cons]
    rw [if_pos (by simpa using hx), ih hxs]

theorem dropWhile_ne_append (c : Char) (l r : List Char) (hl : c ∉ l) :
    (l ++ c :: r).dropWhile (fun d => d ≠ c) = c :: r := by
  induction l with
  | nil => simp
  | cons x xs ih =>
    have hx : x ≠ c := fun he => hl (by simp [he])
    have hxs : c ∉ xs := fun hm => hl (List.mem_cons_of_mem _ hm)
    simp only [List.cons_append, List.dropWhile_cons]
    rw [if_pos (by simpa using hx), ih hxs]

theorem strchrSplit_eq_some (pre post : String) (hpre : ',' ∉ pre.data) :
    strchrSplit (pre ++ "," ++ post) ',' = some (pre, post) := by
  have hcd : ("," : String).data = [','] := rfl
  have hdata : (pre ++ "," ++ post).data = pre.data ++ ',' :: post.data := by
    simp [String.data_append, hcd]
  unfold strchrSplit
  rw [hdata, if_pos (by simp)]
  rw [takeWhile_ne_append ',' pre.data post.data hpre,
      dropWhile_ne_append ',' pre.data post.data hpre]
  rfl

theorem strchrSplit_eq_none (s : String) (c : Char) (hs : c ∉ s.data) :
    strchrSplit s c = none := by
  unfold strchrSplit
  rw [if_neg hs]

/-- C4 counterexample: the claim says a non-numeric side of `-w` is a
fatal usage error naming the offending token.  The code converts both
sides with `atoi` (bgpreader.c lines 247-248), which accepts any string:
`-w abc,5` silently yields the window (0, 5) and no error. -/
theorem c4_counterexample :
    parse_window "abc,5" = .ok ⟨0, 5⟩ ∧ toU32 (atoi "abc") = 0 := by decide

/-- C4 amended: the `-w` argument is split at the first comma; a missing
comma is a fatal usage error naming the offending token (exit -1); each
side is converted with C `atoi` semantics truncated to `uint32_t`, with
no numeric validation (a non-numeric side becomes 0 silently). -/
theorem c4_window_parsing (pre post s : String) (hpre : ',' ∉ pre.data)
    (hs : ',' ∉ s.data) :
    parse_window (pre ++ "," ++ post) =
      .ok ⟨toU32 (atoi pre), toU32 (atoi post)⟩ ∧
    parse_window s =
      .exit ⟨[.err ("ERROR: Malformed time window (" ++ s ++ ")"),
              .err "ERROR: Expecting start,end", .usage], -1⟩ := by
  constructor
  · unfold parse_window
    rw [strchrSplit_eq_some pre post hpre]
  · unfold parse_window
    rw [strchrSplit_eq_none s ',' hs]

/-- Witness for the amended C4: `-w 10,abc` yields the window (10, 0)
without any error, and `-w 1020` (no comma) is the fatal usage error. -/
theorem c4_window_parsing_witness :
    parse_window ("10" ++ "," ++ "abc") =
      .ok ⟨toU32 (atoi "10"), toU32 (atoi "abc")⟩ ∧
    parse_window "1020" =
      .exit ⟨[.err ("ERROR: Malformed time window (" ++ "1020" ++ ")"),
              .err "ERROR: Expecting start,end", .usage], -1⟩ :=
  c4_window_parsing "10" "abc" "1020" (by decide) (by decide)

/-! ### C6, C7, C8: the pull loop and per-record dispatch -/

/-- The dispatch never reports an element failure unless the element loop
itself failed. -/
theorem dispatchRecord_snd (recOn mrtOn elemOn : Bool) (p : Pull)
    (hok : (elemLoop p.elems).2 = false) :
    (dispatchRecord recOn mrtOn elemOn p).2 = false := by
  unfold dispatchRecord
  by_cases h1 : p.ret ≠ 0 ∧ p.record.status = RecordStatus.valid_record
  · rw [if_pos h1]
    cases elemOn
    · rfl
    · simpa using hok
  · rw [if_neg h1]

/-- One-step unfolding of the pull loop. -/
theorem pullLoop_cons (recOn mrtOn elemOn : Bool) (p : Pull)
    (ps : List Pull) :
    pullLoop recOn mrtOn elemOn (p :: ps) =
      if (dispatchRecord recOn mrtOn elemOn p).2 then
        ((dispatchRecord recOn mrtOn elemOn p).1, true)
      else if p.ret > 0 then
        ((dispatchRecord recOn mrtOn elemOn p).1 ++
           (pullLoop recOn mrtOn elemOn ps).1,
         (pullLoop recOn mrtOn elemOn ps).2)
      else ((dispatchRecord recOn mrtOn elemOn p).1, false) := rfl

/-- C6: for every record yielded by the pull loop (a positive
get_next_record return), the record header is emitted iff record mode is
enabled, independently of the record status; MRT and per-element output
are produced only when the status is valid_record and the corresponding
mode is enabled; the per-record output order is header first, then MRT,
then element lines; and, absent an element failure, the loop output is
this record's dispatch followed by the output for the remaining pulls. -/
theorem c6_dispatch_per_record (recOn mrtOn elemOn : Bool) (p : Pull)
    (ps : List Pull) (hret : p.ret > 0)
    (hok : (elemLoop p.elems).2 = false) :
    (dispatchRecord recOn mrtOn elemOn p).1 =
      (if recOn = true then [Ev.out (print_bs_record p.record)] else []) ++
      (if p.record.status = .valid_record ∧ mrtOn = true
       then [Ev.mrtPrint p.record] else []) ++
      (if p.record.status = .valid_record ∧ elemOn = true
       then (elemLoop p.elems).1 else []) ∧
    (pullLoop recOn mrtOn elemOn (p :: ps)).1 =
      (dispatchRecord recOn mrtOn elemOn p).1 ++
      (pullLoop recOn mrtOn elemOn ps).1 := by
  have hne : p.ret ≠ 0 := by omega
  constructor
  · unfold dispatchRecord
    by_cases hv : p.record.status = RecordStatus.valid_record <;>
      cases recOn <;> cases mrtOn <;> cases elemOn <;>
        simp [hne, hv]
  · rw [pullLoop_cons, dispatchRecord_snd recOn mrtOn elemOn p hok]
    simp [hret]

/-- Witness for C6: one valid yielded record with one element, all three
modes on: header, then MRT, then the element line. -/
theorem c6_dispatch_per_record_witness :
    (dispatchRecord true true true
        ⟨1, ⟨10, "pj", "cl", .rib, 5, .middle, .valid_record⟩,
         [.ok "E1"]⟩).1 =
      (if true = true
       then [Ev.out (print_bs_record
         ⟨10, "pj", "cl", .rib, 5, .middle, .valid_record⟩)] else []) ++
      (if (⟨10, "pj", "cl", .rib, 5, .middle, .valid_record⟩ : BSRecord).status
            = .valid_record ∧ true = true
       then [Ev.mrtPrint ⟨10, "pj", "cl", .rib, 5, .middle, .valid_record⟩]
       else []) ++
      (if (⟨10, "pj", "cl", .rib, 5, .middle, .valid_record⟩ : BSRecord).status
            = .valid_record ∧ true = true
       then (elemLoop [.ok "E1"]).1 else []) ∧
    (pullLoop true true true
        [⟨1, ⟨10, "pj", "cl", .rib, 5, .middle, .valid_record⟩,
          [.ok "E1"]⟩]).1 =
      (dispatchRecord true true true
        ⟨1, ⟨10, "pj", "cl", .rib, 5, .middle, .valid_record⟩,
         [.ok "E1"]⟩).1 ++
      (pullLoop true true true []).1 :=
  c6_dispatch_per_record true true true
    ⟨1, ⟨10, "pj", "cl", .rib, 5, .middle, .valid_record⟩, [.ok "E1"]⟩
    [] (by decide) (by decide)

/-- C7: a negative get_next_record return still dispatches the record to
the enabled formatters (the dispatch condition tests the return for
nonzero, not for positive), then leaves the loop without consulting any
further pull, and the driver runs the full teardown and returns 0. -/
theorem c7_negative_return_still_dispatches (E : Engine)
    (recOn mrtOn elemOn : Bool) (p : Pull) (ps : List Pull)
    (hp : E.pulls = p :: ps) (hneg : p.ret < 0)
    (hcr : E.recordCreateOk = true) (hst : 0 ≤ E.startRet)
    (hok : (dispatchRecord recOn mrtOn elemOn p).2 = false) :
    pullLoop recOn mrtOn elemOn (p :: ps) =
      dispatchRecord recOn mrtOn elemOn p ∧
    streamPhase E recOn mrtOn elemOn =
      ([.recordCreate, .startEngine] ++
        (dispatchRecord recOn mrtOn elemOn p).1 ++
        [.recordDestroy, .stopEngine, .destroyEngine], 0) := by
  have hnp : ¬(p.ret > 0) := by omega
  have hloop : pullLoop recOn mrtOn elemOn (p :: ps) =
      dispatchRecord recOn mrtOn elemOn p := by
    rw [pullLoop_cons, hok]
    simp only [Bool.false_eq_true, if_false, hnp]
    rw [← hok]
  refine ⟨hloop, ?_⟩
  unfold streamPhase
  rw [hcr]
  rw [if_neg (by simp), if_neg (by omega), hp, hloop, hok]
  simp

/-- Witness for C7: record mode on, one record pulled with return -1. -/
theorem c7_negative_return_still_dispatches_witness :
    pullLoop true false false
      [⟨-1, ⟨7, "p1", "c1", .update, 3, .start, .corrupted_source⟩, []⟩] =
      dispatchRecord true false false
        ⟨-1, ⟨7, "p1", "c1", .update, 3, .start, .corrupted_source⟩, []⟩ ∧
    streamPhase
      { Edemo with pulls :=
          [⟨-1, ⟨7, "p1", "c1", .update, 3, .start, .corrupted_source⟩, []⟩] }
      true false false =
      ([.recordCreate, .startEngine] ++
        (dispatchRecord true false false
          ⟨-1, ⟨7, "p1", "c1", .update, 3, .start, .corrupted_source⟩, []⟩).1 ++
        [.recordDestroy, .stopEngine, .destroyEngine], 0) :=
  c7_negative_return_still_dispatches
    { Edemo with pulls :=
        [⟨-1, ⟨7, "p1", "c1", .update, 3, .start, .corrupted_source⟩, []⟩] }
    true false false
    ⟨-1, ⟨7, "p1", "c1", .update, 3, .start, .corrupted_source⟩, []⟩ []
    (by decide) (by decide) (by decide) (by decide) (by decide)

/-- One-step unfolding of the element loop. -/
theorem elemLoop_cons (el : ElemPrint) (els : List ElemPrint) :
    elemLoop (el :: els) =
      if (print_elem el).2 = 0 then
        ((print_elem el).1 ++ (elemLoop els).1, (elemLoop els).2)
      else ((print_elem el).1, true) := rfl

/-- The element loop on a list whose first failure is `fail buf`: the
successfully serialized elements are printed in order, then the two
diagnostic lines; elements after the failure are never serialized. -/
theorem elemLoop_fail (strs : List String) (buf : String)
    (post : List ElemPrint) :
    elemLoop (strs.map ElemPrint.ok ++ ElemPrint.fail buf :: post) =
      (strs.map (fun s => Ev.out (s ++ "\n")) ++
       [.err "Failed to construct elem string",
        .err ("Elem string: " ++ (⟨buf.data.take 65535⟩ : String))],
       true) := by
  induction strs with
  | nil => rfl
  | cons s ss ih =>
    simp only [List.map_cons, List.cons_append]
    rw [elemLoop_cons,
        if_pos (show (print_elem (ElemPrint.ok s)).2 = 0 from rfl), ih]
    simp [print_elem]

/-- C8: when an element serialization fails (elem_snprintf returns NULL),
the driver logs the diagnostic and a best-effort line with the buffer
contents NUL-terminated at byte 65535, abandons the remaining elements,
runs the full teardown (destroy record, stop engine, destroy engine) and
exits with code -1. -/
theorem c8_elem_failure_teardown (E : Engine) (recOn mrtOn : Bool)
    (p : Pull) (ps : List Pull) (strs : List String) (buf : String)
    (post : List ElemPrint)
    (hp : E.pulls = p :: ps) (hcr : E.recordCreateOk = true)
    (hst : 0 ≤ E.startRet) (hret : p.ret ≠ 0)
    (hv : p.record.status = .valid_record)
    (helems : p.elems = strs.map ElemPrint.ok ++ ElemPrint.fail buf :: post) :
    streamPhase E recOn mrtOn true =
      ([.recordCreate, .startEngine] ++
       ((if p.ret ≠ 0 ∧ recOn = true
         then [Ev.out (print_bs_record p.record)] else []) ++
        (if mrtOn = true then [Ev.mrtPrint p.record] else []) ++
        (strs.map (fun s => Ev.out (s ++ "\n")) ++
         [.err "Failed to construct elem string",
          .err ("Elem string: " ++ (⟨buf.data.take 65535⟩ : String))])) ++
       [.recordDestroy, .stopEngine, .destroyEngine], -1) := by
  have hd : dispatchRecord recOn mrtOn true p =
      ((if p.ret ≠ 0 ∧ recOn = true
        then [Ev.out (print_bs_record p.record)] else []) ++
       (if mrtOn = true then [Ev.mrtPrint p.record] else []) ++
       (strs.map (fun s => Ev.out (s ++ "\n")) ++
        [.err "Failed to construct elem string",
         .err ("Elem string: " ++ (⟨buf.data.take 65535⟩ : String))]),
       true) := by
    unfold dispatchRecord
    rw [if_pos ⟨hret, hv⟩, if_pos rfl, helems, elemLoop_fail]
  unfold streamPhase
  rw [hcr]
  rw [if_neg (by simp), if_neg (by omega), hp, pullLoop_cons, hd]
  simp

/-- Witness for C8: one valid record with a successful element then a
failing one; no record/MRT mode. -/
theorem c8_elem_failure_teardown_witness :
    streamPhase
      { Edemo with pulls :=
          [⟨1, ⟨10, "pj", "cl", .update, 5, .end_, .valid_record⟩,
            [.ok "E1", .fail "junk"]⟩] }
      false false true =
      ([.recordCreate, .startEngine] ++
       ((if (1 : Int) ≠ 0 ∧ false = true
         then [Ev.out (print_bs_record
           ⟨10, "pj", "cl", .update, 5, .end_, .valid_record⟩)] else []) ++
        (if false = true
         then [Ev.mrtPrint ⟨10, "pj", "cl", .update, 5, .end_, .valid_record⟩]
         else []) ++
        (["E1"].map (fun s => Ev.out (s ++ "\n")) ++
         [.err "Failed to construct elem string",
          .err ("Elem string: " ++
                (⟨("junk" : String).data.take 65535⟩ : String))])) ++
       [.recordDestroy, .stopEngine, .destroyEngine], -1) :=
  c8_elem_failure_teardown
    { Edemo with pulls :=
        [⟨1, ⟨10, "pj", "cl", .update, 5, .end_, .valid_record⟩,
          [.ok "E1", .fail "junk"]⟩] }
    false false
    ⟨1, ⟨10, "pj", "cl", .update, 5, .end_, .valid_record⟩,
     [.ok "E1", .fail "junk"]⟩
    [] ["E1"] "junk" []
    (by decide) (by decide) (by decide) (by decide) (by decide) (by decide)

/-! ### C10: the `?` sentinel in the binder -/

/-- One-step unfolding of the binder loop. -/
theorem bindOptions_cons (E : Engine) (id : Nat) (o : String)
    (rest : List String) :
    bindOptions E id (o :: rest) =
      if o.data.head? = some '?' then
        (dump_if_options E id ++ [.usage], some 0)
      else
        match strchrSplit o ',' with
        | none =>
          ([.err ("ERROR: Malformed data interface option (" ++ o ++ ")"),
            .err "ERROR: Expecting <option-name>,<option-value>", .usage],
           some (-1))
        | some (oname, oval) =>
          match E.optionByName id oname with
          | none =>
            ([.err ("ERROR: Invalid option \x27" ++ oname ++
                    "\x27 for data interface \x27" ++ E.ifInfoName id ++
                    "\x27"), .usage], some (-1))
          | some opt =>
            (.setIfOption opt oval :: (bindOptions E id rest).1,
             (bindOptions E id rest).2) := rfl

/-- C10: when the binder reaches a `?` entry it prints the options
advertised by the engine for the current data interface (the
`dump_if_options` block, with `[NONE]` when there are none) followed by
the usage text and exits with code 0; entries after the sentinel are
never resolved or applied (the result does not depend on them). -/
theorem c10_option_sentinel (E : Engine) (id : Nat) (pre post : List String)
    (hpre : (bindOptions E id pre).2 = none) :
    bindOptions E id (pre ++ "?" :: post) =
      ((bindOptions E id pre).1 ++ (dump_if_options E id ++ [.usage]),
       some 0) := by
  induction pre with
  | nil =>
    simp only [List.nil_append]
    rw [bindOptions_cons,
        if_pos (show ("?" : String).data.head? = some '?' by decide)]
    simp [bindOptions]
  | cons o os ih =>
    simp only [List.cons_append]
    rw [bindOptions_cons E id o os] at hpre
    rw [bindOptions_cons E id o (os ++ "?" :: post),
        bindOptions_cons E id o os]
    by_cases hq : o.data.head? = some '?'
    · rw [if_pos hq] at hpre
      simp at hpre
    · simp only [hq, if_false] at hpre ⊢
      rcases hsp : strchrSplit o ',' with _ | ⟨oname, oval⟩
      · rw [hsp] at hpre
        simp at hpre
      · rw [hsp] at hpre
        dsimp only at hpre ⊢
        rcases hop : E.optionByName id oname with _ | opt
        · rw [hop] at hpre
          simp at hpre
        · rw [hop] at hpre
          dsimp only at hpre ⊢
          have hos : (bindOptions E id os).2 = none := hpre
          rw [ih hos]
          simp

/-- Witness for C10: with the singlefile interface, one successfully
bound entry before the sentinel and one entry after it. -/
theorem c10_option_sentinel_witness :
    bindOptions Edemo 2
        (["rib-file,thefile"] ++ "?" :: ["upd-file,ignored"]) =
      ((bindOptions Edemo 2 ["rib-file,thefile"]).1 ++
        (dump_if_options Edemo 2 ++ [.usage]), some 0) :=
  c10_option_sentinel Edemo 2 ["rib-file,thefile"] ["upd-file,ignored"]
    (by decide)

/-! ### C5: `-o` placement relative to `-d` -/

/-- Parsing one `-o value` pair (separate argv slots, value not
flag-shaped, cap not reached) appends the raw value and continues. -/
theorem parseLoop_step_o (E : Engine) (x : String) (args : List String)
    (c : Config) (hx : optargDashOrNull (some x) = false)
    (hcap : c.interface_options.length ≠ OPTION_CMD_CNT) :
    parseLoop E ⟨"-o" :: x :: args, []⟩ c =
      parseLoop E ⟨args, []⟩
        { c with interface_options := c.interface_options ++ [x] } := by
  rw [parseLoop_step,
      show getoptNext ⟨"-o" :: x :: args, []⟩ =
        (.code 'o' (some x) true, ⟨args, []⟩) from rfl]
  dsimp only
  simp only [Bool.true_and, hx, Bool.false_eq_true, if_false]
  rw [show handleOpt E 'o' (some x) c =
        if c.interface_options.length = OPTION_CMD_CNT then
          StepRes.exit ⟨[.err ("ERROR: A maximum of " ++
            natDec OPTION_CMD_CNT ++ " interface options can be specified"),
            .usage], -1⟩
        else
          StepRes.cont
            { c with interface_options := c.interface_options ++ [x] }
      from rfl,
      if_neg hcap]

/-- Parsing one `-d ifname` pair (separate argv slots, name not
flag-shaped): an unknown name is the fatal usage error, a known name
replaces `datasource_id` and continues. -/
theorem parseLoop_step_d (E : Engine) (y : String) (args : List String)
    (c : Config) (hy : optargDashOrNull (some y) = false) :
    parseLoop E ⟨"-d" :: y :: args, []⟩ c =
      if E.ifIdByName y = 0 then
        .exit ⟨[.err ("ERROR: Invalid data interface name \x27" ++ y ++
                      "\x27"), .usage], -1⟩
      else
        parseLoop E ⟨args, []⟩ { c with datasource_id := E.ifIdByName y } := by
  rw [parseLoop_step,
      show getoptNext ⟨"-d" :: y :: args, []⟩ =
        (.code 'd' (some y) true, ⟨args, []⟩) from rfl]
  dsimp only
  simp only [Bool.true_and, hy, Bool.false_eq_true, if_false]
  rw [show handleOpt E 'd' (some y) c =
        if E.ifIdByName y = 0 then
          StepRes.exit ⟨[.err ("ERROR: Invalid data interface name \x27" ++
            y ++ "\x27"), .usage], -1⟩
        else StepRes.cont { c with datasource_id := E.ifIdByName y }
      from rfl]
  by_cases hid : E.ifIdByName y = 0
  · rw [if_pos hid, if_pos hid]
  · rw [if_neg hid, if_neg hid]

/-- C5: `-o name,value` entries are only buffered during flag parsing and
are bound in a second pass (`bindOptions`, run by `afterParse` with the
final `datasource_id`), so swapping an adjacent `-o` pair with a `-d`
pair leaves the whole parse result unchanged: the same configuration, the
same binder behaviour and the same engine calls follow.  Hypotheses: the
two option arguments are not flag-shaped (else the missing-argument
rewrite fires first) and the `-o` cap is not already reached. -/
theorem c5_o_d_commute (E : Engine) (cfg : Config) (x y : String)
    (rest : List String)
    (hx : optargDashOrNull (some x) = false)
    (hy : optargDashOrNull (some y) = false)
    (hcap : cfg.interface_options.length ≠ OPTION_CMD_CNT) :
    parseLoop E ⟨"-o" :: x :: "-d" :: y :: rest, []⟩ cfg =
      parseLoop E ⟨"-d" :: y :: "-o" :: x :: rest, []⟩ cfg := by
  rw [parseLoop_step_o E x ("-d" :: y :: rest) cfg hx hcap,
      parseLoop_step_d E y rest
        { cfg with interface_options := cfg.interface_options ++ [x] } hy,
      parseLoop_step_d E y ("-o" :: x :: rest) cfg hy]
  by_cases hid : E.ifIdByName y = 0
  · rw [if_pos hid, if_pos hid]
  · rw [if_neg hid, if_neg hid,
        parseLoop_step_o E x rest
          { cfg with datasource_id := E.ifIdByName y } hx hcap]

/-- Witness for C5: `-o rib-file,f -d singlefile -w 1,2` parses the same
as `-d singlefile -o rib-file,f -w 1,2`. -/
theorem c5_o_d_commute_witness :
    parseLoop Edemo
        ⟨"-o" :: "rib-file,f" :: "-d" :: "singlefile" :: ["-w", "1,2"], []⟩
        (initConfig Edemo) =
      parseLoop Edemo
        ⟨"-d" :: "singlefile" :: "-o" :: "rib-file,f" :: ["-w", "1,2"], []⟩
        (initConfig Edemo) :=
  c5_o_d_commute Edemo (initConfig Edemo) "rib-file,f" "singlefile"
    ["-w", "1,2"] (by decide) (by decide) (by decide)
